import Mathlib

/-!
Verification of the protocol/state core of `src/CYD_OBD2_Gauge.ino`
(Nobody-OS/OBDII_Gauge).

The Arduino `String` values handled by the notification path are modelled
as `List Char`; the C `float` arithmetic of the sketch is modelled as exact
rational arithmetic over `ℚ`; C `int`/`long` values (always tiny here) are
modelled as `ℤ`.
-/

/-- C `isspace` (the character class used by Arduino `String::trim` and by
`strtol` when skipping leading whitespace). -/
def isSpaceC (c : Char) : Bool :=
  c = ' ' || c = '\t' || c = '\n' || c = '\x0b' || c = '\x0c' || c = '\r'

/-- Arduino `String::trim()`: remove leading and trailing `isspace` characters. -/
def trimL (l : List Char) : List Char :=
  (((l.dropWhile isSpaceC).reverse).dropWhile isSpaceC).reverse

/-- Arduino `String::startsWith(pre)` on the character-list model. -/
def startsWithL : List Char → List Char → Bool
  | [], _ => true
  | _ :: _, [] => false
  | p :: ps, c :: cs => p == c && startsWithL ps cs

/-- Value of one hexadecimal digit, as used by `strtol(..., 16)`. -/
def hexDigitVal? (c : Char) : Option ℕ :=
  if '0' ≤ c ∧ c ≤ '9' then some (c.toNat - 48)
  else if 'A' ≤ c ∧ c ≤ 'F' then some (c.toNat - 55)
  else if 'a' ≤ c ∧ c ≤ 'f' then some (c.toNat - 87)
  else none

/-- Accumulate the maximal leading run of hex digits (the digit-consuming loop
of `strtol(..., 16)`). -/
def hexRun : List Char → ℕ → ℕ
  | [], acc => acc
  | c :: cs, acc =>
    match hexDigitVal? c with
    | some d => hexRun cs (acc * 16 + d)
    | none => acc

/-- The part of `strtol(..., 16)` after sign handling: an optional `0x`/`0X`
marker (consumed only when a hex digit follows) and then the digit run. -/
def hexBody (l : List Char) : ℕ :=
  match l with
  | '0' :: c :: r :: rest =>
    if (c = 'x' || c = 'X') && (hexDigitVal? r).isSome then hexRun (r :: rest) 0
    else hexRun l 0
  | _ => hexRun l 0

/-- C `strtol(s, nullptr, 16)`: skip leading whitespace, optional sign,
optional `0x` marker, then the maximal run of hex digits (0 if none). -/
def strtolHex (l : List Char) : ℤ :=
  match l.dropWhile isSpaceC with
  | '-' :: rest => -(hexBody rest : ℤ)
  | '+' :: rest => (hexBody rest : ℤ)
  | rest => (hexBody rest : ℤ)

/-- C `round` (Arduino round macro / libm `round`): round half away from zero.
For the nonnegative arguments arising in the sketch both agree with `⌊q+1/2⌋`.
Stated with the executable `Rat.floor`/`Rat.ceil`. -/
def cround (q : ℚ) : ℤ := if 0 ≤ q then (q + 1 / 2).floor else (q - 1 / 2).ceil

/-- Arduino `constrain(amt, low, high)` macro. -/
def constrain (x lo hi : ℤ) : ℤ := if x < lo then lo else if hi < x then hi else x

/-- The grouping loop of `parseDTCs` (`for (int i = 2; i < chunk.length(); i += 4)`),
run on the suffix of the cleaned chunk starting at index 2: emit 4-character
groups separated by single spaces. -/
def dtcGroups : List Char → List Char
  | [] => []
  | [a] => [a]
  | [a, b] => [a, b]
  | [a, b, c] => [a, b, c]
  | a :: b :: c :: d :: rest =>
    [a, b, c, d] ++ (if rest.isEmpty then [] else ' ' :: dtcGroups rest)

/-- `parseDTCs` (src lines 743-752): delete all spaces and carriage returns,
drop the two header characters, group the rest into 4-character codes. -/
def parseDTCs (chunk : List Char) : List Char :=
  dtcGroups (((chunk.filter (fun c => c != ' ')).filter (fun c => c != '\r')).drop 2)

/-- The vehicle-state globals of the sketch (src lines 70-76). -/
structure VehicleState where
  rpmVal : ℚ
  speedKph : ℚ
  coolantTemp : ℚ
  maf : ℚ
  fuelRate : ℚ
  dtcList : List Char
  estGear : ℤ
deriving DecidableEq

/-- Initial values of the globals (src lines 70-76). -/
def initialState : VehicleState :=
  { rpmVal := 0, speedKph := 0, coolantTemp := 0, maf := -1, fuelRate := -1,
    dtcList := [], estGear := 0 }

/-- The decode branch chain of `onBLENotify` (src lines 713-737), applied to the
already-trimmed response. -/
def decodeStep (resp : List Char) (s : VehicleState) : VehicleState :=
  if startsWithL ['4', '1', ' ', '0', 'C'] resp then
    if 11 ≤ resp.length then
      let A := strtolHex ((resp.drop 6).take 2)
      let B := strtolHex ((resp.drop 9).take 2)
      { s with rpmVal := ((A * 256 + B : ℤ) : ℚ) / 4 }
    else s
  else if startsWithL ['4', '1', ' ', '0', 'D'] resp then
    if 9 ≤ resp.length then
      let v := strtolHex ((resp.drop 6).take 2)
      { s with speedKph := (v : ℚ) }
    else s
  else if startsWithL ['4', '1', ' ', '0', '5'] resp then
    if 9 ≤ resp.length then
      let v := strtolHex ((resp.drop 6).take 2)
      { s with coolantTemp := (v : ℚ) - 40 }
    else s
  else if startsWithL ['4', '1', ' ', '1', '0'] resp then
    if 11 ≤ resp.length then
      let A := strtolHex ((resp.drop 6).take 2)
      let B := strtolHex ((resp.drop 9).take 2)
      { s with maf := ((A * 256 + B : ℤ) : ℚ) / 100 }
    else s
  else if startsWithL ['0', '3'] resp then
    { s with dtcList := parseDTCs resp }
  else s

/-- The gear heuristic of `onBLENotify` (src lines 739-740):
`constrain(round((rpmVal / ((speedKph > 1.0f) ? speedKph : 1.0f)) / 10.0f), 1, 6)`. -/
def gearCode (rpm speed : ℚ) : ℤ :=
  constrain (cround (rpm / (if 1 < speed then speed else 1) / 10)) 1 6

/-- The unconditional gear recomputation at the end of `onBLENotify`. -/
def recomputeGear (s : VehicleState) : VehicleState :=
  { s with estGear := gearCode s.rpmVal s.speedKph }

/-- `onBLENotify` (src lines 709-741): collect the notified bytes, trim, run the
decode branch chain, then recompute the estimated gear. -/
def onBLENotify (data : List Char) (s : VehicleState) : VehicleState :=
  recomputeGear (decodeStep (trimL data) s)

/-- Feed a sequence of notification frames to the handler, starting from the
initial state. -/
def processFrames (frames : List (List Char)) : VehicleState :=
  frames.foldl (fun s f => onBLENotify f s) initialState

/-- Clamp as written in the specification: `clamp(x, lo, hi)`. -/
def clampSpec (x lo hi : ℤ) : ℤ := min hi (max lo x)

/-- The gear formula exactly as the specification words it:
`clamp(round((rpm / max(speed, 1.0)) / 10.0), 1, 6)` (with Mathlib `round`). -/
def gearSpec (rpm speed : ℚ) : ℤ := clampSpec (round (rpm / max speed 1 / 10)) 1 6

/-- Uppercase hexadecimal digit character for a value `< 16`. -/
def hexDigit (n : ℕ) : Char := if n < 10 then Char.ofNat (48 + n) else Char.ofNat (55 + n)

/-- Canonical well-formed RPM response line `41 0C AA BB` for data bytes `A`, `B`. -/
def frameRPM (A B : Fin 256) : List Char :=
  ['4', '1', ' ', '0', 'C', ' ', hexDigit (A.val / 16), hexDigit (A.val % 16), ' ',
    hexDigit (B.val / 16), hexDigit (B.val % 16)]

/-- Canonical well-formed MAF response line `41 10 AA BB` for data bytes `A`, `B`. -/
def frameMAF (A B : Fin 256) : List Char :=
  ['4', '1', ' ', '1', '0', ' ', hexDigit (A.val / 16), hexDigit (A.val % 16), ' ',
    hexDigit (B.val / 16), hexDigit (B.val % 16)]

/-- Canonical well-formed speed response line `41 0D AA` for data byte `A`
(8 characters, the minimal well-formed form). -/
def frameSpeed (A : Fin 256) : List Char :=
  ['4', '1', ' ', '0', 'D', ' ', hexDigit (A.val / 16), hexDigit (A.val % 16)]

/-- Canonical well-formed coolant response line `41 05 AA` for data byte `A`. -/
def frameCoolant (A : Fin 256) : List Char :=
  ['4', '1', ' ', '0', '5', ' ', hexDigit (A.val / 16), hexDigit (A.val % 16)]

/-- A speed response line padded with a trailing prompt character (10 characters,
as an adapter that appends `>` would deliver it). -/
def frameSpeedPad (A : Fin 256) : List Char :=
  ['4', '1', ' ', '0', 'D', ' ', hexDigit (A.val / 16), hexDigit (A.val % 16), ' ', '>']

/-- A coolant response line padded with a trailing prompt character. -/
def frameCoolantPad (A : Fin 256) : List Char :=
  ['4', '1', ' ', '0', '5', ' ', hexDigit (A.val / 16), hexDigit (A.val % 16), ' ', '>']

/-- A trimmed frame that the decode chain of `onBLENotify` ignores: either its
header matches a recognized PID but the payload is shorter than that branch
demands, or no branch header matches. -/
def badFrame (r : List Char) : Bool :=
  (startsWithL ['4', '1', ' ', '0', 'C'] r && decide (r.length < 11))
  || (startsWithL ['4', '1', ' ', '0', 'D'] r && decide (r.length < 9))
  || (startsWithL ['4', '1', ' ', '0', '5'] r && decide (r.length < 9))
  || (startsWithL ['4', '1', ' ', '1', '0'] r && decide (r.length < 11))
  || (!startsWithL ['4', '1', ' ', '0', 'C'] r && !startsWithL ['4', '1', ' ', '0', 'D'] r
      && !startsWithL ['4', '1', ' ', '0', '5'] r && !startsWithL ['4', '1', ' ', '1', '0'] r
      && !startsWithL ['0', '3'] r)

/-- A discovered BLE peer as seen by the scan callback: `name` is the string `n`
the callback computes (`haveName ? getName : ""`), `addr` stands in for the device
identity. -/
structure Device where
  name : String
  addr : ℕ
deriving DecidableEq

/-- `MyAdvertisedDeviceCallbacks::onResult` (src lines 132-144): the update of
`foundDevice` on one advertisement, given the configured `bleDeviceName` filter. -/
def onResult (filter : String) (found : Option Device) (d : Device) : Option Device :=
  if filter.length = 0 ∧ found = none then some d
  else if d.name = filter then some d
  else found

/-- The candidate left in `foundDevice` after a scan that discovers `ds` in order,
starting from `nullptr`. -/
def scanFold (filter : String) (ds : List Device) : Option Device :=
  ds.foldl (onResult filter) none

/-- Oracle for the transport outcomes of one run of `connectWorkflow`
(src lines 653-700): whether the scan left a candidate, the results of the two
connect attempts, and the service/characteristic lookcode results. -/
structure BLEEnv where
  scanFound : Bool
  connect1 : Bool
  connect2 : Bool
  servicePresent : Bool
  txPresent : Bool
  rxPresent : Bool
  rxCanNotify : Bool
deriving DecidableEq

/-- Outcome of one run of `connectWorkflow`: the value of `bleConnected`, whether
`registerForNotify` was called, and whether the candidate was discarded (client
deleted and `foundDevice` cleared on the failure paths). -/
structure ConnResult where
  bleConnected : Bool
  subscribed : Bool
  discarded : Bool
deriving DecidableEq

/-- `connectWorkflow` (src lines 653-700): after a scan with a candidate, try to
connect (2 attempts); on success look up the NUS service; if present, fetch the
characteristics, subscribe when the notify characteristic is usable, and set
`bleConnected = true`; a missing service (or connect exhaustion) disconnects and
discards the candidate. -/
def connectWorkflow (env : BLEEnv) : ConnResult :=
  if env.scanFound then
    if env.connect1 || env.connect2 then
      if env.servicePresent then
        { bleConnected := true, subscribed := env.rxPresent && env.rxCanNotify,
          discarded := false }
      else { bleConnected := false, subscribed := false, discarded := true }
    else { bleConnected := false, subscribed := false, discarded := true }
  else { bleConnected := false, subscribed := false, discarded := false }

/-- The five PID commands of one polling cycle with the `delay(80)` after each
(src lines 183-187). -/
def pidSeq : List (String × ℕ) :=
  [("010C", 80), ("010D", 80), ("0105", 80), ("0110", 80), ("015E", 80)]

/-- One due polling cycle (src lines 181-189): the five PID requests, plus the
DTC request `03` when the incremented counter reaches 6 (which also resets it). -/
def pollCycle (cnt : ℕ) : List (String × ℕ) × ℕ :=
  if 6 ≤ cnt + 1 then (pidSeq ++ [("03", 0)], 0) else (pidSeq, cnt + 1)

/-- The command output of one `loop()` pass for the OBD block: nothing unless
`bleConnected` and the 900 ms cadence gate (`due`) has elapsed (src lines 176-190). -/
def loopCommands (connected due : Bool) (cnt : ℕ) : List (String × ℕ) × ℕ :=
  if connected && due then pollCycle cnt else ([], cnt)

/-- The command lists of `n` consecutive due polling cycles starting from DTC
counter `cnt`. -/
def runCycles : ℕ → ℕ → List (List (String × ℕ))
  | _, 0 => []
  | cnt, n + 1 => (pollCycle cnt).1 :: runCycles (pollCycle cnt).2 n

-- sanity checks on the parts that the kernel can evaluate directly
example : trimL ("  41 0D 32 \r".toList) = "41 0D 32".toList := by decide
example : parseDTCs ("43 01 71 02 03".toList) = "0171 0203".toList := by decide
example : strtolHex ("1A".toList) = 26 := by decide
example : (runCycles 0 6).length = 6 := by decide

/-! ### Helper lemmas -/

lemma ratFloor_eq_intFloor (q : ℚ) : q.floor = ⌊q⌋ :=
  (Rat.floor_def' q).trans Rat.floor_def.symm

lemma cround_eval (q : ℚ) (z : ℤ) (h0 : 0 ≤ q) (h1 : (z : ℚ) ≤ q + 1 / 2)
    (h2 : q + 1 / 2 < z + 1) : cround q = z := by
  unfold cround
  rw [if_pos h0, ratFloor_eq_intFloor]
  exact Int.floor_eq_iff.mpr ⟨h1, h2⟩

lemma gearCode_1726_0 : gearCode 1726 0 = 6 := by
  unfold gearCode
  rw [if_neg (by norm_num : ¬ (1 : ℚ) < 0)]
  rw [cround_eval (1726 / 1 / 10) 173 (by norm_num) (by norm_num) (by norm_num)]
  decide

lemma gearCode_0_0 : gearCode 0 0 = 1 := by
  unfold gearCode
  rw [if_neg (by norm_num : ¬ (1 : ℚ) < 0)]
  rw [cround_eval (0 / 1 / 10) 0 (by norm_num) (by norm_num) (by norm_num)]
  decide

lemma recomputeGear_rpmVal (s : VehicleState) : (recomputeGear s).rpmVal = s.rpmVal := rfl

lemma recomputeGear_speedKph (s : VehicleState) : (recomputeGear s).speedKph = s.speedKph := rfl

lemma recomputeGear_coolantTemp (s : VehicleState) :
    (recomputeGear s).coolantTemp = s.coolantTemp := rfl

lemma recomputeGear_maf (s : VehicleState) : (recomputeGear s).maf = s.maf := rfl

lemma recomputeGear_fuelRate (s : VehicleState) : (recomputeGear s).fuelRate = s.fuelRate := rfl

lemma recomputeGear_dtcList (s : VehicleState) : (recomputeGear s).dtcList = s.dtcList := rfl

lemma recomputeGear_estGear (s : VehicleState) :
    (recomputeGear s).estGear = gearCode s.rpmVal s.speedKph := rfl

lemma onBLENotify_estGear (f : List Char) (s : VehicleState) :
    (onBLENotify f s).estGear =
      gearCode (onBLENotify f s).rpmVal (onBLENotify f s).speedKph := rfl

lemma hexDigit_not_space (d : ℕ) (h : d < 16) : isSpaceC (hexDigit d) = false := by
  interval_cases d <;> decide

lemma strtolHex_hexPair (d1 d2 : ℕ) (h1 : d1 < 16) (h2 : d2 < 16) :
    strtolHex [hexDigit d1, hexDigit d2] = ((16 * d1 + d2 : ℕ) : ℤ) := by
  interval_cases d1 <;> interval_cases d2 <;> decide

lemma dropWhile_cons_of_false {p : Char → Bool} {a : Char} {l : List Char}
    (h : p a = false) : (a :: l).dropWhile p = a :: l := by
  simp [List.dropWhile, h]

lemma trimL_eq_self (a b : Char) (l : List Char) (ha : isSpaceC a = false)
    (hb : isSpaceC b = false) : trimL (a :: (l ++ [b])) = a :: (l ++ [b]) := by
  unfold trimL
  rw [dropWhile_cons_of_false ha]
  have hrev : (a :: (l ++ [b])).reverse = b :: (l.reverse ++ [a]) := by simp
  rw [hrev, dropWhile_cons_of_false hb, ← hrev, List.reverse_reverse]

lemma trimL_frameRPM (A B : Fin 256) : trimL (frameRPM A B) = frameRPM A B := by
  have hb : isSpaceC (hexDigit (B.val % 16)) = false :=
    hexDigit_not_space _ (Nat.mod_lt _ (by norm_num))
  show trimL ('4' :: (['1', ' ', '0', 'C', ' ', hexDigit (A.val / 16), hexDigit (A.val % 16),
    ' ', hexDigit (B.val / 16)] ++ [hexDigit (B.val % 16)])) = frameRPM A B
  exact trimL_eq_self _ _ _ rfl hb

lemma trimL_frameMAF (A B : Fin 256) : trimL (frameMAF A B) = frameMAF A B := by
  have hb : isSpaceC (hexDigit (B.val % 16)) = false :=
    hexDigit_not_space _ (Nat.mod_lt _ (by norm_num))
  show trimL ('4' :: (['1', ' ', '1', '0', ' ', hexDigit (A.val / 16), hexDigit (A.val % 16),
    ' ', hexDigit (B.val / 16)] ++ [hexDigit (B.val % 16)])) = frameMAF A B
  exact trimL_eq_self _ _ _ rfl hb

lemma trimL_frameSpeed (A : Fin 256) : trimL (frameSpeed A) = frameSpeed A := by
  have hb : isSpaceC (hexDigit (A.val % 16)) = false :=
    hexDigit_not_space _ (Nat.mod_lt _ (by norm_num))
  show trimL ('4' :: (['1', ' ', '0', 'D', ' ', hexDigit (A.val / 16)] ++
    [hexDigit (A.val % 16)])) = frameSpeed A
  exact trimL_eq_self _ _ _ rfl hb

lemma trimL_frameCoolant (A : Fin 256) : trimL (frameCoolant A) = frameCoolant A := by
  have hb : isSpaceC (hexDigit (A.val % 16)) = false :=
    hexDigit_not_space _ (Nat.mod_lt _ (by norm_num))
  show trimL ('4' :: (['1', ' ', '0', '5', ' ', hexDigit (A.val / 16)] ++
    [hexDigit (A.val % 16)])) = frameCoolant A
  exact trimL_eq_self _ _ _ rfl hb

lemma trimL_frameSpeedPad (A : Fin 256) : trimL (frameSpeedPad A) = frameSpeedPad A := by
  show trimL ('4' :: (['1', ' ', '0', 'D', ' ', hexDigit (A.val / 16), hexDigit (A.val % 16),
    ' '] ++ ['>'])) = frameSpeedPad A
  exact trimL_eq_self _ _ _ rfl rfl

lemma trimL_frameCoolantPad (A : Fin 256) : trimL (frameCoolantPad A) = frameCoolantPad A := by
  show trimL ('4' :: (['1', ' ', '0', '5', ' ', hexDigit (A.val / 16), hexDigit (A.val % 16),
    ' '] ++ ['>'])) = frameCoolantPad A
  exact trimL_eq_self _ _ _ rfl rfl

lemma startsWith5_false (p1 p2 p3 p4 p5 q1 q2 q3 q4 q5 : Char) (r : List Char)
    (h : startsWithL [p1, p2, p3, p4, p5] r = true)
    (hne : (p1 = q1 ∧ p2 = q2 ∧ p3 = q3 ∧ p4 = q4 ∧ p5 = q5) → False) :
    startsWithL [q1, q2, q3, q4, q5] r = false := by
  rcases r with _ | ⟨a, r⟩
  · simp [startsWithL] at h
  rcases r with _ | ⟨b, r⟩
  · simp [startsWithL] at h
  rcases r with _ | ⟨c, r⟩
  · simp [startsWithL] at h
  rcases r with _ | ⟨d, r⟩
  · simp [startsWithL] at h
  rcases r with _ | ⟨e, r⟩
  · simp [startsWithL] at h
  simp only [startsWithL, Bool.and_eq_true, beq_iff_eq, and_true] at h
  obtain ⟨h1, h2, h3, h4, h5⟩ := h
  rw [← Bool.not_eq_true]
  intro hq
  simp only [startsWithL, Bool.and_eq_true, beq_iff_eq, and_true] at hq
  obtain ⟨e1, e2, e3, e4, e5⟩ := hq
  exact hne ⟨h1.trans e1.symm, h2.trans e2.symm, h3.trans e3.symm, h4.trans e4.symm,
    h5.trans e5.symm⟩

lemma decodeStep_of_badFrame (r : List Char) (s : VehicleState) (h : badFrame r = true) :
    decodeStep r s = s := by
  unfold badFrame at h
  simp only [Bool.or_eq_true, Bool.and_eq_true, Bool.not_eq_true', decide_eq_true_eq] at h
  unfold decodeStep
  obtain (((⟨h1, h2⟩ | ⟨h1, h2⟩) | ⟨h1, h2⟩) | ⟨h1, h2⟩) | ⟨⟨⟨⟨h1, h2⟩, h3⟩, h4⟩, h5⟩ := h
  · rw [if_pos h1, if_neg (by omega)]
  · have f1 := startsWith5_false '4' '1' ' ' '0' 'D' '4' '1' ' ' '0' 'C' r h1
      (by rintro ⟨-, -, -, -, hc⟩; exact absurd hc (by decide))
    rw [if_neg (by simp [f1]), if_pos h1, if_neg (by omega)]
  · have f1 := startsWith5_false '4' '1' ' ' '0' '5' '4' '1' ' ' '0' 'C' r h1
      (by rintro ⟨-, -, -, -, hc⟩; exact absurd hc (by decide))
    have f2 := startsWith5_false '4' '1' ' ' '0' '5' '4' '1' ' ' '0' 'D' r h1
      (by rintro ⟨-, -, -, -, hc⟩; exact absurd hc (by decide))
    rw [if_neg (by simp [f1]), if_neg (by simp [f2]), if_pos h1, if_neg (by omega)]
  · have f1 := startsWith5_false '4' '1' ' ' '1' '0' '4' '1' ' ' '0' 'C' r h1
      (by rintro ⟨-, -, -, hc, -⟩; exact absurd hc (by decide))
    have f2 := startsWith5_false '4' '1' ' ' '1' '0' '4' '1' ' ' '0' 'D' r h1
      (by rintro ⟨-, -, -, hc, -⟩; exact absurd hc (by decide))
    have f3 := startsWith5_false '4' '1' ' ' '1' '0' '4' '1' ' ' '0' '5' r h1
      (by rintro ⟨-, -, -, hc, -⟩; exact absurd hc (by decide))
    rw [if_neg (by simp [f1]), if_neg (by simp [f2]), if_neg (by simp [f3]), if_pos h1,
      if_neg (by omega)]
  · rw [if_neg (by simp [h1]), if_neg (by simp [h2]), if_neg (by simp [h3]),
      if_neg (by simp [h4]), if_neg (by simp [h5])]

lemma onBLENotify_of_badFrame (frame : List Char) (s : VehicleState)
    (h : badFrame (trimL frame) = true) : onBLENotify frame s = recomputeGear s := by
  unfold onBLENotify
  rw [decodeStep_of_badFrame _ _ h]

lemma onBLENotify_frameRPM (A B : Fin 256) (s : VehicleState) :
    onBLENotify (frameRPM A B) s =
      recomputeGear { s with rpmVal := ((A.val * 256 + B.val : ℕ) : ℚ) / 4 } := by
  have hA := A.isLt
  have hB := B.isLt
  unfold onBLENotify
  rw [trimL_frameRPM]
  have hstep : decodeStep (frameRPM A B) s =
      { s with rpmVal :=
        ((strtolHex [hexDigit (A.val / 16), hexDigit (A.val % 16)] * 256 +
          strtolHex [hexDigit (B.val / 16), hexDigit (B.val % 16)] : ℤ) : ℚ) / 4 } := rfl
  rw [hstep, strtolHex_hexPair _ _ (by omega) (by omega),
    strtolHex_hexPair _ _ (by omega) (by omega), Nat.div_add_mod, Nat.div_add_mod]
  have e3 : (((A.val : ℤ) * 256 + (B.val : ℤ) : ℤ) : ℚ) / 4 =
      ((A.val * 256 + B.val : ℕ) : ℚ) / 4 := by push_cast; ring
  rw [e3]

lemma onBLENotify_frameMAF (A B : Fin 256) (s : VehicleState) :
    onBLENotify (frameMAF A B) s =
      recomputeGear { s with maf := ((A.val * 256 + B.val : ℕ) : ℚ) / 100 } := by
  have hA := A.isLt
  have hB := B.isLt
  unfold onBLENotify
  rw [trimL_frameMAF]
  have hstep : decodeStep (frameMAF A B) s =
      { s with maf :=
        ((strtolHex [hexDigit (A.val / 16), hexDigit (A.val % 16)] * 256 +
          strtolHex [hexDigit (B.val / 16), hexDigit (B.val % 16)] : ℤ) : ℚ) / 100 } := rfl
  rw [hstep, strtolHex_hexPair _ _ (by omega) (by omega),
    strtolHex_hexPair _ _ (by omega) (by omega), Nat.div_add_mod, Nat.div_add_mod]
  have e3 : (((A.val : ℤ) * 256 + (B.val : ℤ) : ℤ) : ℚ) / 100 =
      ((A.val * 256 + B.val : ℕ) : ℚ) / 100 := by push_cast; ring
  rw [e3]

lemma onBLENotify_frameSpeedPad (A : Fin 256) (s : VehicleState) :
    onBLENotify (frameSpeedPad A) s =
      recomputeGear { s with speedKph := ((A.val : ℕ) : ℚ) } := by
  have hA := A.isLt
  unfold onBLENotify
  rw [trimL_frameSpeedPad]
  have hstep : decodeStep (frameSpeedPad A) s =
      { s with speedKph :=
        ((strtolHex [hexDigit (A.val / 16), hexDigit (A.val % 16)] : ℤ) : ℚ) } := rfl
  rw [hstep, strtolHex_hexPair _ _ (by omega) (by omega), Nat.div_add_mod]
  norm_num

lemma onBLENotify_frameCoolantPad (A : Fin 256) (s : VehicleState) :
    onBLENotify (frameCoolantPad A) s =
      recomputeGear { s with coolantTemp := ((A.val : ℕ) : ℚ) - 40 } := by
  have hA := A.isLt
  unfold onBLENotify
  rw [trimL_frameCoolantPad]
  have hstep : decodeStep (frameCoolantPad A) s =
      { s with coolantTemp :=
        ((strtolHex [hexDigit (A.val / 16), hexDigit (A.val % 16)] : ℤ) : ℚ) - 40 } := rfl
  rw [hstep, strtolHex_hexPair _ _ (by omega) (by omega), Nat.div_add_mod]
  norm_num

lemma onBLENotify_frameSpeed (A : Fin 256) (s : VehicleState) :
    onBLENotify (frameSpeed A) s = recomputeGear s := by
  unfold onBLENotify
  rw [trimL_frameSpeed]
  rfl

lemma onBLENotify_frameCoolant (A : Fin 256) (s : VehicleState) :
    onBLENotify (frameCoolant A) s = recomputeGear s := by
  unfold onBLENotify
  rw [trimL_frameCoolant]
  rfl

lemma decodeStep_fuelRate (r : List Char) (s : VehicleState) :
    (decodeStep r s).fuelRate = s.fuelRate := by
  unfold decodeStep
  repeat' split
  all_goals rfl

lemma onBLENotify_fuelRate (f : List Char) (s : VehicleState) :
    (onBLENotify f s).fuelRate = s.fuelRate := by
  unfold onBLENotify
  rw [recomputeGear_fuelRate, decodeStep_fuelRate]

lemma constrain_bounds (x : ℤ) : 1 ≤ constrain x 1 6 ∧ constrain x 1 6 ≤ 6 := by
  unfold constrain
  split
  · omega
  split <;> omega

lemma foldl_onResult_keepName (filter : String) (hf : filter.length ≠ 0) :
    ∀ (ds : List Device) (acc : Option Device),
      (∀ d, acc = some d → d.name = filter) →
      ∀ d, ds.foldl (onResult filter) acc = some d → d.name = filter := by
  intro ds
  induction ds with
  | nil =>
    intro acc hacc d hd
    exact hacc d hd
  | cons e es ih =>
    intro acc hacc d hd
    rw [List.foldl_cons] at hd
    refine ih (onResult filter acc e) ?_ d hd
    intro d' hd'
    unfold onResult at hd'
    rw [if_neg (fun hc => hf hc.1)] at hd'
    by_cases he : e.name = filter
    · rw [if_pos he] at hd'
      exact Option.some.inj hd' ▸ he
    · rw [if_neg he] at hd'
      exact hacc d' hd'

lemma onResult_keep (filter : String) (d e : Device) (hne : ¬ e.name = filter)
    (hc : ¬ (filter.length = 0 ∧ (some d : Option Device) = none)) :
    onResult filter (some d) e = some d := by
  unfold onResult
  rw [if_neg hc, if_neg hne]

lemma foldl_onResult_first :
    ∀ (rest : List Device) (d : Device), (∀ e ∈ rest, e.name ≠ "") →
      rest.foldl (onResult "") (some d) = some d := by
  intro rest
  induction rest with
  | nil =>
    intro d _
    rfl
  | cons e es ih =>
    intro d h
    rw [List.foldl_cons,
      onResult_keep "" d e (h e (List.mem_cons_self e es)) (fun hc => Option.noConfusion hc.2)]
    exact ih d (fun x hx => h x (List.mem_cons_of_mem e hx))

lemma onResult_isSome (filter : String) (d e : Device) :
    ∃ x, onResult filter (some d) e = some x := by
  unfold onResult
  split
  · exact ⟨e, rfl⟩
  split
  · exact ⟨e, rfl⟩
  · exact ⟨d, rfl⟩

lemma foldl_onResult_some (filter : String) :
    ∀ (l : List Device) (d : Device), ∃ x, l.foldl (onResult filter) (some d) = some x := by
  intro l
  induction l with
  | nil =>
    intro d
    exact ⟨d, rfl⟩
  | cons e es ih =>
    intro d
    rw [List.foldl_cons]
    obtain ⟨x, hx⟩ := onResult_isSome filter d e
    rw [hx]
    exact ih x

lemma scanFold_first_step (d : Device) (ds : List Device) :
    scanFold "" (d :: ds) = ds.foldl (onResult "") (some d) := by
  unfold scanFold
  rw [List.foldl_cons]
  have h0 : onResult "" none d = some d := by
    unfold onResult
    rw [if_pos ⟨rfl, rfl⟩]
  rw [h0]

lemma scanFold_last_empty (d e : Device) (rest : List Device) (he : e.name = "") :
    scanFold "" (d :: (rest ++ [e])) = some e := by
  rw [scanFold_first_step, List.foldl_append]
  obtain ⟨x, hx⟩ := foldl_onResult_some "" rest d
  rw [hx]
  show List.foldl (onResult "") (some x) [e] = some e
  rw [List.foldl_cons]
  have hstep : onResult "" (some x) e = some e := by
    unfold onResult
    rw [if_neg (fun hc => Option.noConfusion hc.2), if_pos he]
  rw [hstep]
  rfl

lemma runCycles_get (n : ℕ) : ∀ (cnt i : ℕ) (cmds : List (String × ℕ)), cnt < 6 →
    (runCycles cnt n).get? i = some cmds →
    cmds = pidSeq ++ (if (cnt + i + 1) % 6 = 0 then [("03", 0)] else []) := by
  induction n with
  | zero =>
    intro cnt i cmds _ h
    simp [runCycles] at h
  | succ n ih =>
    intro cnt i cmds hcnt h
    rw [show runCycles cnt (n + 1) = (pollCycle cnt).1 :: runCycles (pollCycle cnt).2 n
      from rfl] at h
    cases i with
    | zero =>
      rw [List.get?_cons_zero] at h
      obtain rfl := Option.some.inj h
      by_cases h5 : cnt = 5
      · subst h5
        decide
      · rw [show (pollCycle cnt).1 = pidSeq from by unfold pollCycle; rw [if_neg (by omega)],
          if_neg (by omega : ¬ (cnt + 0 + 1) % 6 = 0)]
        simp
    | succ i =>
      rw [List.get?_cons_succ] at h
      by_cases h5 : cnt = 5
      · subst h5
        rw [show (pollCycle 5).2 = 0 from by decide] at h
        rw [ih 0 i cmds (by omega) h,
          if_congr (show ((0 + i + 1) % 6 = 0) ↔ ((5 + (i + 1) + 1) % 6 = 0) from by omega)
            rfl rfl]
      · rw [show (pollCycle cnt).2 = cnt + 1 from by unfold pollCycle; rw [if_neg (by omega)]]
          at h
        rw [ih (cnt + 1) i cmds (by omega) h,
          if_congr (show ((cnt + 1 + i + 1) % 6 = 0) ↔ ((cnt + (i + 1) + 1) % 6 = 0) from
            by omega) rfl rfl]

lemma gearCode_eq_gearSpec (rpm speed : ℚ) (h : 0 ≤ rpm) :
    gearCode rpm speed = gearSpec rpm speed := by
  unfold gearCode gearSpec clampSpec constrain cround
  have hd : (if 1 < speed then speed else 1) = max speed 1 := by
    rcases le_or_lt speed 1 with h1 | h1
    · rw [if_neg (not_lt.mpr h1), max_eq_right h1]
    · rw [if_pos h1, max_eq_left h1.le]
  have hpos : (0 : ℚ) < max speed 1 := lt_of_lt_of_le one_pos (le_max_right speed 1)
  have hq : 0 ≤ rpm / max speed 1 / 10 :=
    div_nonneg (div_nonneg h hpos.le) (by norm_num)
  rw [hd, if_pos hq, ratFloor_eq_intFloor, round_eq]
  set x := ⌊rpm / max speed 1 / 10 + 1 / 2⌋ with hx
  split
  · omega
  split <;> omega

/-! ### Claims -/

/-- C1: for well-formed response lines, the decode stores the PID-specific value.
This holds for RPM (`((A*256)+B)/4`) and MAF (`((A*256)+B)/100`), but NOT for
speed and coolant: their branches demand a trimmed length of at least 9 while the
minimal well-formed one-byte response (e.g. `41 0D 32`) has 8 characters, so the
code leaves those slots unchanged; a line padded past 8 characters does decode to
`A` resp. `A - 40`. -/
theorem claim_C1_eval :
    (∀ (s : VehicleState) (A B : Fin 256),
      (onBLENotify (frameRPM A B) s).rpmVal = ((A.val * 256 + B.val : ℕ) : ℚ) / 4) ∧
    (∀ (s : VehicleState) (A B : Fin 256),
      (onBLENotify (frameMAF A B) s).maf = ((A.val * 256 + B.val : ℕ) : ℚ) / 100) ∧
    (∀ s : VehicleState, (onBLENotify ("41 0D 32".toList) s).speedKph = s.speedKph) ∧
    (∀ s : VehicleState, (onBLENotify ("41 05 5A".toList) s).coolantTemp = s.coolantTemp) ∧
    (∀ (s : VehicleState) (A : Fin 256),
      (onBLENotify (frameSpeedPad A) s).speedKph = ((A.val : ℕ) : ℚ)) ∧
    (∀ (s : VehicleState) (A : Fin 256),
      (onBLENotify (frameCoolantPad A) s).coolantTemp = ((A.val : ℕ) : ℚ) - 40) := by
  refine ⟨?_, ?_, ?_, ?_, ?_, ?_⟩
  · intro s A B
    rw [onBLENotify_frameRPM, recomputeGear_rpmVal]
  · intro s A B
    rw [onBLENotify_frameMAF, recomputeGear_maf]
  · intro s
    rw [show ("41 0D 32".toList) = frameSpeed 50 from by decide, onBLENotify_frameSpeed,
      recomputeGear_speedKph]
  · intro s
    rw [show ("41 05 5A".toList) = frameCoolant 90 from by decide, onBLENotify_frameCoolant,
      recomputeGear_coolantTemp]
  · intro s A
    rw [onBLENotify_frameSpeedPad, recomputeGear_speedKph]
  · intro s A
    rw [onBLENotify_frameCoolantPad, recomputeGear_coolantTemp]

/-- C2: feeding the three scenario frames `41 0C 1A F8`, `41 0D 32`, `41 05 5A`
leaves rpm = 1726, but speed = 0 and coolant = 0 (not 50/50 as the scenario
expects): the speed/coolant guards require 9 characters and the 8-character
frames are dropped, so the gear is computed from rpm 1726 and speed 0, giving 6. -/
theorem claim_C2_eval :
    (processFrames ["41 0C 1A F8".toList, "41 0D 32".toList, "41 05 5A".toList]).rpmVal
        = 1726 ∧
    (processFrames ["41 0C 1A F8".toList, "41 0D 32".toList, "41 05 5A".toList]).speedKph
        = 0 ∧
    (processFrames ["41 0C 1A F8".toList, "41 0D 32".toList, "41 05 5A".toList]).coolantTemp
        = 0 ∧
    (processFrames ["41 0C 1A F8".toList, "41 0D 32".toList, "41 05 5A".toList]).estGear
        = 6 := by
  have hunfold : processFrames ["41 0C 1A F8".toList, "41 0D 32".toList, "41 05 5A".toList] =
      onBLENotify ("41 05 5A".toList)
        (onBLENotify ("41 0D 32".toList)
          (onBLENotify ("41 0C 1A F8".toList) initialState)) := rfl
  have hb2 : ∀ t, onBLENotify ("41 0D 32".toList) t = recomputeGear t := fun t =>
    onBLENotify_of_badFrame _ t (by decide)
  have hb3 : ∀ t, onBLENotify ("41 05 5A".toList) t = recomputeGear t := fun t =>
    onBLENotify_of_badFrame _ t (by decide)
  have hs1 : onBLENotify ("41 0C 1A F8".toList) initialState =
      recomputeGear { initialState with
        rpmVal := (((26 : Fin 256).val * 256 + (248 : Fin 256).val : ℕ) : ℚ) / 4 } := by
    rw [show ("41 0C 1A F8".toList) = frameRPM 26 248 from by decide, onBLENotify_frameRPM]
  have hs1r : (onBLENotify ("41 0C 1A F8".toList) initialState).rpmVal = 1726 := by
    rw [hs1, recomputeGear_rpmVal]
    show (((26 : Fin 256).val * 256 + (248 : Fin 256).val : ℕ) : ℚ) / 4 = 1726
    rw [show ((26 : Fin 256)).val = 26 from rfl, show ((248 : Fin 256)).val = 248 from rfl]
    norm_num
  have hs1s : (onBLENotify ("41 0C 1A F8".toList) initialState).speedKph = 0 := by
    rw [hs1, recomputeGear_speedKph]
    rfl
  have hs1c : (onBLENotify ("41 0C 1A F8".toList) initialState).coolantTemp = 0 := by
    rw [hs1, recomputeGear_coolantTemp]
    rfl
  refine ⟨?_, ?_, ?_, ?_⟩
  · rw [hunfold, hb3, hb2, recomputeGear_rpmVal, recomputeGear_rpmVal, hs1r]
  · rw [hunfold, hb3, hb2, recomputeGear_speedKph, recomputeGear_speedKph, hs1s]
  · rw [hunfold, hb3, hb2, recomputeGear_coolantTemp, recomputeGear_coolantTemp, hs1c]
  · rw [hunfold, hb3, hb2, recomputeGear_estGear, recomputeGear_rpmVal, recomputeGear_speedKph,
      hs1r, hs1s]
    exact gearCode_1726_0

/-- C3: after processing any notification, when the stored rpm and speed are
nonnegative the estimated gear equals the specification formula
`clamp(round((rpm / max(speed, 1.0)) / 10.0), 1, 6)` and lies in `[1, 6]`. -/
theorem claim_C3 (frame : List Char) (s : VehicleState)
    (h1 : 0 ≤ (onBLENotify frame s).rpmVal) (h2 : 0 ≤ (onBLENotify frame s).speedKph) :
    (onBLENotify frame s).estGear =
      gearSpec (onBLENotify frame s).rpmVal (onBLENotify frame s).speedKph ∧
    1 ≤ (onBLENotify frame s).estGear ∧ (onBLENotify frame s).estGear ≤ 6 := by
  refine ⟨?_, ?_, ?_⟩
  · rw [onBLENotify_estGear]
    exact gearCode_eq_gearSpec _ _ h1
  · rw [onBLENotify_estGear]
    exact (constrain_bounds _).1
  · rw [onBLENotify_estGear]
    exact (constrain_bounds _).2

/-- C3 witness: the RPM scenario frame from the initial state. -/
theorem claim_C3_witness :
    (onBLENotify ("41 0C 1A F8".toList) initialState).estGear =
      gearSpec (onBLENotify ("41 0C 1A F8".toList) initialState).rpmVal
        (onBLENotify ("41 0C 1A F8".toList) initialState).speedKph ∧
    1 ≤ (onBLENotify ("41 0C 1A F8".toList) initialState).estGear ∧
    (onBLENotify ("41 0C 1A F8".toList) initialState).estGear ≤ 6 :=
  claim_C3 ("41 0C 1A F8".toList) initialState
    (by
      rw [show ("41 0C 1A F8".toList) = frameRPM 26 248 from by decide, onBLENotify_frameRPM,
        recomputeGear_rpmVal]
      positivity)
    (by
      rw [show ("41 0C 1A F8".toList) = frameRPM 26 248 from by decide, onBLENotify_frameRPM,
        recomputeGear_speedKph]
      exact le_refl 0)

/-- C4 counterexample: an unrecognized frame processed from the initial state
changes the snapshot, because the estimated gear is recomputed on every
notification: it moves from its initial 0 to 1. -/
theorem claim_C4_cex :
    badFrame (trimL ("ZZ".toList)) = true ∧
    initialState.estGear = 0 ∧
    (onBLENotify ("ZZ".toList) initialState).estGear = 1 ∧
    onBLENotify ("ZZ".toList) initialState ≠ initialState := by
  have hest : (onBLENotify ("ZZ".toList) initialState).estGear = 1 := by
    rw [onBLENotify_of_badFrame _ _ (by decide), recomputeGear_estGear]
    exact gearCode_0_0
  refine ⟨by decide, rfl, hest, ?_⟩
  intro heq
  have h0 := congrArg VehicleState.estGear heq
  rw [hest] at h0
  exact absurd h0 (by decide)

/-- C4 amended: a too-short or unrecognized frame leaves every data slot (rpm,
speed, coolant, MAF, fuel rate, DTC list) unchanged, and the estimated gear is
recomputed from the unchanged rpm and speed; hence whenever the stored gear was
already consistent with rpm and speed (as it is after any processed
notification), the whole snapshot is unchanged. -/
theorem claim_C4_amended (frame : List Char) (s : VehicleState)
    (h : badFrame (trimL frame) = true) :
    (onBLENotify frame s).rpmVal = s.rpmVal ∧
    (onBLENotify frame s).speedKph = s.speedKph ∧
    (onBLENotify frame s).coolantTemp = s.coolantTemp ∧
    (onBLENotify frame s).maf = s.maf ∧
    (onBLENotify frame s).fuelRate = s.fuelRate ∧
    (onBLENotify frame s).dtcList = s.dtcList ∧
    (onBLENotify frame s).estGear = gearCode s.rpmVal s.speedKph ∧
    (s.estGear = gearCode s.rpmVal s.speedKph → onBLENotify frame s = s) := by
  rw [onBLENotify_of_badFrame frame s h]
  refine ⟨rfl, rfl, rfl, rfl, rfl, rfl, rfl, ?_⟩
  intro he
  unfold recomputeGear
  rw [← he]

/-- C4 witness: a concrete unknown frame applied to the initial state. -/
theorem claim_C4_witness :
    (onBLENotify ("XX".toList) initialState).fuelRate = initialState.fuelRate :=
  (claim_C4_amended ("XX".toList) initialState (by decide)).2.2.2.2.1

/-- C5 counterexample: with a found candidate, a successful connect and a present
service but a missing notify characteristic, the workflow still sets
`bleConnected = true` without having subscribed, and does not discard the
candidate: subscription failure is not fatal. -/
theorem claim_C5_cex :
    (connectWorkflow ⟨true, true, false, true, true, false, false⟩).bleConnected = true ∧
    (connectWorkflow ⟨true, true, false, true, true, false, false⟩).subscribed = false ∧
    (connectWorkflow ⟨true, true, false, true, true, false, false⟩).discarded = false := by
  decide

/-- C5 amended: `bleConnected` is set exactly when a candidate was found, a
connect attempt succeeded and service discovery succeeded; subscription
additionally requires the notify characteristic to exist and support notify, and
its failure does not prevent `CONNECTED`; only connect exhaustion or a missing
service takes the disconnect-and-discard path. -/
theorem claim_C5_amended (env : BLEEnv) :
    (connectWorkflow env).bleConnected =
        (env.scanFound && (env.connect1 || env.connect2) && env.servicePresent) ∧
    (connectWorkflow env).subscribed =
        (env.scanFound && (env.connect1 || env.connect2) && env.servicePresent &&
          env.rxPresent && env.rxCanNotify) ∧
    (connectWorkflow env).discarded =
        (env.scanFound && !((env.connect1 || env.connect2) && env.servicePresent)) := by
  obtain ⟨a, b, c, d, e, f, g⟩ := env
  cases a <;> cases b <;> cases c <;> cases d <;> cases e <;> cases f <;> cases g <;> decide

/-- C6: the DTC scenario frame `43 01 71 02 03` never reaches `parseDTCs`: the
dispatch tests for the prefix `03` (the request echo), not the mode-03 response
header `43`, so the stored DTC list is left unchanged — even though `parseDTCs`
itself would turn this very frame into the two expected codes `0171 0203`. -/
theorem claim_C6_eval :
    (∀ s : VehicleState, (onBLENotify ("43 01 71 02 03".toList) s).dtcList = s.dtcList) ∧
    parseDTCs ("43 01 71 02 03".toList) = "0171 0203".toList :=
  ⟨fun _ => rfl, by decide⟩

/-- C7 counterexample: rpm, speed and coolant initialize to 0.0, and 0.0 is also
a successfully decoded valid reading (frame `41 0C 00 00` yields rpm = 0), so
these initial values do present as valid zeros, contrary to the claim. -/
theorem claim_C7_cex :
    initialState.rpmVal = 0 ∧ initialState.speedKph = 0 ∧ initialState.coolantTemp = 0 ∧
    (onBLENotify ("41 0C 00 00".toList) initialState).rpmVal = 0 := by
  refine ⟨rfl, rfl, rfl, ?_⟩
  rw [show ("41 0C 00 00".toList) = frameRPM 0 0 from by decide, onBLENotify_frameRPM,
    recomputeGear_rpmVal]
  rw [show ((0 : Fin 256)).val = 0 from rfl]
  norm_num

/-- C7 amended: only MAF and fuel rate carry a negative sentinel (-1.0),
distinguishable from any decoded MAF reading (always nonnegative); the estimated
gear starts at 0, outside its valid range; rpm, speed and coolant start at 0.0,
which coincides with valid readings. -/
theorem claim_C7_amended :
    initialState.maf = -1 ∧ initialState.fuelRate = -1 ∧ initialState.estGear = 0 ∧
    ∀ (s : VehicleState) (A B : Fin 256), 0 ≤ (onBLENotify (frameMAF A B) s).maf := by
  refine ⟨rfl, rfl, rfl, ?_⟩
  intro s A B
  rw [onBLENotify_frameMAF, recomputeGear_maf]
  show 0 ≤ ((A.val * 256 + B.val : ℕ) : ℚ) / 100
  positivity

/-- C8 counterexample: with no name filter configured, the first discovered
device (named "ELM") becomes the candidate but a later nameless device overwrites
it, so the connection candidate is not the first device discovered. -/
theorem claim_C8_cex :
    scanFold "" [⟨"ELM", 1⟩, ⟨"", 2⟩] = some ⟨"", 2⟩ ∧
    ([(⟨"ELM", 1⟩ : Device), ⟨"", 2⟩].head? = some ⟨"ELM", 1⟩) ∧
    (⟨"", 2⟩ : Device) ≠ (⟨"ELM", 1⟩ : Device) := by
  decide

/-- C8 amended: with a configured (non-empty) name filter, only a device whose
advertised name equals the filter becomes the candidate; with no filter, the
first discovered device is the candidate unless a later device advertises an
empty name, in which case that (last such) device replaces it. -/
theorem claim_C8_amended :
    (∀ (filter : String) (ds : List Device) (d : Device), filter.length ≠ 0 →
      scanFold filter ds = some d → d.name = filter) ∧
    (∀ (d : Device) (rest : List Device), (∀ e ∈ rest, e.name ≠ "") →
      scanFold "" (d :: rest) = some d) ∧
    (∀ (d e : Device) (rest : List Device), e.name = "" →
      scanFold "" (d :: (rest ++ [e])) = some e) := by
  refine ⟨?_, ?_, ?_⟩
  · intro filter ds d hf h
    exact foldl_onResult_keepName filter hf ds none (fun d' hd' => Option.noConfusion hd') d h
  · intro d rest h
    rw [scanFold_first_step]
    exact foldl_onResult_first rest d h
  · intro d e rest he
    exact scanFold_last_empty d e rest he

/-- C8 witness: a configured filter accepting a matching device. -/
theorem claim_C8_witness : (Device.mk "OBDII" 7).name = "OBDII" :=
  claim_C8_amended.1 "OBDII" [⟨"OBDII", 7⟩] ⟨"OBDII", 7⟩ (by decide) (by decide)

/-- C9: no PID commands are issued unless connected and due; every due cycle
issues exactly the ordered sequence 010C, 010D, 0105, 0110, 015E (each with the
fixed 80 ms spacing), and the `03` DTC request is appended exactly on every 6th
cycle. -/
theorem claim_C9 :
    (∀ (due : Bool) (cnt : ℕ), loopCommands false due cnt = ([], cnt)) ∧
    (∀ cnt : ℕ, loopCommands true false cnt = ([], cnt)) ∧
    (∀ (n i : ℕ) (cmds : List (String × ℕ)), (runCycles 0 n).get? i = some cmds →
      cmds = pidSeq ++ (if (i + 1) % 6 = 0 then [("03", 0)] else [])) := by
  refine ⟨fun _ _ => rfl, fun _ => rfl, ?_⟩
  intro n i cmds h
  have hmain := runCycles_get n 0 i cmds (by omega) h
  simpa using hmain

/-- C9 witness: the 6th cycle of a run from a fresh counter carries the DTC
request. -/
theorem claim_C9_witness :
    pidSeq ++ [("03", 0)] = pidSeq ++ (if (5 + 1) % 6 = 0 then [("03", 0)] else []) :=
  claim_C9.2.2 6 5 (pidSeq ++ [("03", 0)]) (by decide)

/-- C10: no decode branch matches a fuel-rate response, so the notification path
never writes the fuel-rate slot, and after any sequence of processed frames it
still holds the initial sentinel -1.0. -/
theorem claim_C10 :
    (∀ (frame : List Char) (s : VehicleState), (onBLENotify frame s).fuelRate = s.fuelRate) ∧
    (∀ frames : List (List Char), (processFrames frames).fuelRate = -1) := by
  refine ⟨onBLENotify_fuelRate, ?_⟩
  intro frames
  have key : ∀ (l : List (List Char)) (s : VehicleState),
      (l.foldl (fun t f => onBLENotify f t) s).fuelRate = s.fuelRate := by
    intro l
    induction l with
    | nil =>
      intro s
      rfl
    | cons f fs ih =>
      intro s
      rw [List.foldl_cons, ih, onBLENotify_fuelRate]
  exact (key frames initialState).trans rfl
